import Mathlib

/-!
Verification development for `scripts/freecloud_checkin.py`: a shallow
embedding of the script's heuristic session engine (challenge detector,
retrying HTTP transport, CSRF token extractor, login classification, form
selection, check-in result classification, and the per-account
orchestrator with its exit-code policy), together with theorems settling
the specification claims about it.

Text is modelled as `List Char` (Python `str`), with `String` wrappers at
the points where the source functions take strings.  Python's `re.search`
with `re.I` over the concrete patterns appearing in the script is
modelled by dedicated matcher functions: every pattern in the script is
either a literal, or a literal sequence joined by `\s*` / `\s+` /
optional-character pieces whose character sets are disjoint from the
following literal, so greedy left-to-right matching without backtracking
is exact.
-/

/-! ## Status constants (source lines 29-33) -/

def SUCCESS : String := "success"

def ALREADY : String := "already"

def TWO_FA : String := "2fa"

def FAILED : String := "failed"

def SKIPPED : String := "skipped"

/-! ## Character-level matching core

Matchers take the remaining input and return `some rest` on a match at
the current position (consuming the matched part) or `none`.  `re.I` is
modelled by comparing `Char.toLower` images; the script's patterns mix
ASCII (which Python lowercases the same way) and CJK characters (which
have no case in either system). -/

/-- Case-insensitive character equality, modelling `re.I`. -/
def chEqCI (a b : Char) : Bool := decide (a.toLower = b.toLower)

/-- Match a literal pattern case-insensitively at the current position. -/
def mLit : List Char → List Char → Option (List Char)
  | [], l => some l
  | _ :: _, [] => none
  | p :: ps, c :: cs => if chEqCI p c then mLit ps cs else none

/-- The characters matched by Python's `\s` on ASCII input. -/
def pyWhitespace : List Char :=
  [' ', Char.ofNat 9, Char.ofNat 10, Char.ofNat 13, Char.ofNat 11, Char.ofNat 12]

/-- Consume `\s*` (greedy). -/
def mSpaces0 : List Char → List Char
  | [] => []
  | c :: cs => if pyWhitespace.contains c then mSpaces0 cs else c :: cs

/-- Consume `\s+` (greedy, at least one whitespace character). -/
def mSpaces1 : List Char → Option (List Char)
  | [] => none
  | c :: cs => if pyWhitespace.contains c then some (mSpaces0 cs) else none

/-- Consume an optional single character out of `opts` (models `[-_]?` etc.). -/
def mOptChars (opts : List Char) : List Char → List Char
  | [] => []
  | c :: cs => if opts.contains c then cs else c :: cs

/-- Does a matcher succeed at some position of `l`?  Models `re.search`,
which tries every start position from the left, including end of input. -/
def searchSome (m : List Char → Option (List Char)) (l : List Char) : Bool :=
  l.tails.any (fun t => (m t).isSome)

/-- Does any matcher in the list succeed somewhere in `l`?  Models
`any(re.search(p, text) for p in patterns)`. -/
def searchAnyM (ms : List (List Char → Option (List Char))) (l : List Char) : Bool :=
  ms.any (fun m => searchSome m l)

/-! ## Challenge detector (source lines 61-83, `is_2fa_or_human_challenge`) -/

/-- Pattern `Two\s*Factor`. -/
def mTwoSpacedFactor (l : List Char) : Option (List Char) :=
  (mLit "Two".data l).map mSpaces0 |>.bind (mLit "Factor".data)

/-- Pattern `Two-?Factor`. -/
def mTwoDashFactor (l : List Char) : Option (List Char) :=
  (mLit "Two".data l).map (mOptChars ['-']) |>.bind (mLit "Factor".data)

/-- Pattern `Attention Required!\s*Cloudflare`. -/
def mAttentionCloudflare (l : List Char) : Option (List Char) :=
  (mLit "Attention Required!".data l).map mSpaces0 |>.bind (mLit "Cloudflare".data)

/-- The body-text patterns of `is_2fa_or_human_challenge` (source lines 64-78). -/
def challengeMatchers : List (List Char → Option (List Char)) :=
  [ mTwoSpacedFactor
  , mTwoDashFactor
  , mLit "二次验证".data
  , mLit "二步验证".data
  , mLit "两步验证".data
  , mLit "验证码".data
  , mLit "人机验证".data
  , mLit "机器人验证".data
  , mLit "hcaptcha".data
  , mLit "recaptcha".data
  , mLit "Please complete the security check".data
  , mAttentionCloudflare
  , mLit "安全验证".data ]

/-- The URL pattern `two[-_]?factor|twofa|2fa` (source line 81). -/
def mTwoFaUrl (l : List Char) : Option (List Char) :=
  match (mLit "two".data l).map (mOptChars ['-', '_']) |>.bind (mLit "factor".data) with
  | some r => some r
  | none =>
    match mLit "twofa".data l with
    | some r => some r
    | none => mLit "2fa".data l

/-- Challenge detector `is_2fa_or_human_challenge(text, url)` (source
lines 61-83).  Note the early `if not text: return False` guard: an empty
body short-circuits the whole function, including the URL check. -/
def is_2fa_or_human_challenge (text : String) (url : String := "") : Bool :=
  if text = "" then false
  else if searchAnyM challengeMatchers text.data then true
  else if searchSome mTwoFaUrl url.data then true
  else false

/-! ## Resilient HTTP transport (source lines 86-112, `http_request`)

The underlying `session.request` is modelled as a function from the
attempt index to either a response or a raised network error.  Sleeping
and jitter between attempts (time-only effects) are omitted. -/

structure HttpResp where
  status : Nat
  body : String
deriving DecidableEq, Repr

/-- One loop iteration's `try` body: perform the call; a response with
status `>= 500` raises `requests.RequestException("Server error: ...")`,
which the surrounding `except` catches like a network error. -/
def attemptOnce (call : Nat → Except String HttpResp) (i : Nat) : Except String HttpResp :=
  match call i with
  | .ok r => if 500 ≤ r.status then .error ("Server error: " ++ toString r.status) else .ok r
  | .error e => .error e

/-- The retry loop `for attempt in range(retries)`: on failure, re-raise
when this was the last attempt (`attempt == retries - 1`, i.e. no
remaining attempts), otherwise back off and retry. -/
def http_request_go (call : Nat → Except String HttpResp) : Nat → Nat → Except String HttpResp
  | _, 0 => .error "http_request reached the unreachable fallthrough (retries = 0)"
  | attempt, remaining + 1 =>
    match attemptOnce call attempt with
    | .ok r => .ok r
    | .error e => if remaining = 0 then .error e else http_request_go call (attempt + 1) remaining

/-- `http_request(session, method, url, retries=3, ...)` (source lines
86-112), as a function of the transport oracle and the retry budget. -/
def http_request (call : Nat → Except String HttpResp) (retries : Nat := 3) :
    Except String HttpResp :=
  http_request_go call 0 retries

/-- Does this attempt outcome make the retry loop's `except` branch run
(a raised network error, or a status `>= 500` converted into one)? -/
def attemptFails (x : Except String HttpResp) : Bool :=
  match x with
  | .error _ => true
  | .ok r => decide (500 ≤ r.status)

/-! ## Token extractor (source lines 115-132, `_extract_csrf_token_from_html`)

The fallback regex is
`name\s*=\s*["']token["']\s+value\s*=\s*["']([^"']+)["']` with `re.I`.
Every character class in it is disjoint from the literal that follows it,
so the greedy scanner below is an exact model. -/

def quoteChars : List Char := ['"', Char.ofNat 39]

/-- Consume one quote character, `["']`. -/
def mQuote : List Char → Option (List Char)
  | [] => none
  | c :: cs => if quoteChars.contains c then some cs else none

/-- Match `([^"']+)["']`: capture one or more non-quote characters, then
consume the closing quote; returns the capture and the rest. -/
def mCapture (l : List Char) : Option (List Char × List Char) :=
  let tok := l.takeWhile (fun c => !quoteChars.contains c)
  let rest := l.dropWhile (fun c => !quoteChars.contains c)
  if tok.isEmpty then none
  else
    match rest with
    | [] => none
    | c :: cs => if quoteChars.contains c then some (tok, cs) else none

/-- Match the whole token regex at the current position, returning the
captured group. -/
def tokenMatchAt (l : List Char) : Option (List Char) :=
  (mLit "name".data l).map mSpaces0
    |>.bind (mLit "=".data)
    |>.map mSpaces0
    |>.bind mQuote
    |>.bind (mLit "token".data)
    |>.bind mQuote
    |>.bind mSpaces1
    |>.bind (mLit "value".data)
    |>.map mSpaces0
    |>.bind (mLit "=".data)
    |>.map mSpaces0
    |>.bind mQuote
    |>.bind (fun r => (mCapture r).map Prod.fst)

/-- `re.search` with the token regex: first position (from the left) at
which the regex matches, returning group 1; `re.search` tries every start
position, the end of the input included. -/
def tokenRegexSearch (l : List Char) : Option (List Char) :=
  l.tails.findSome? tokenMatchAt

/-- `_extract_csrf_token_from_html(html)` (source lines 115-132).
`bsFind` models the structured-parser stage
`soup.find("input", attrs={"name": "token"})`: `none` when BeautifulSoup
is unavailable, raises, or finds no such input; `some v` when an input
element was found, `v` being its optional `value` attribute.  The source
returns the structured value only when it is truthy (present and
non-empty); otherwise it falls through to the regex. -/
def extract_csrf_token (bsFind : Option (Option (List Char))) (html : List Char) :
    Option (List Char) :=
  if html = [] then none
  else
    match bsFind with
    | some (some v) => if v = [] then tokenRegexSearch html else some v
    | _ => tokenRegexSearch html

/-! ## Login classification (source lines 135-233, `login_whmcs`)

The classification part of `login_whmcs` as a function of the three
responses the session sees: the login-page GET, the credential POST, and
the `/clientarea.php` confirmation GET.  Token extraction and form
selection only shape the POST request (they are modelled separately
below) and do not influence which branch classifies the outcome. -/

structure HtmlResponse where
  text : String
  url : String
deriving DecidableEq, Repr

/-- The failure-phrase patterns (source lines 203-210); `Invalid\s+Login`
is the only non-literal. -/
def mInvalidLogin (l : List Char) : Option (List Char) :=
  (mLit "Invalid".data l).bind mSpaces1 |>.bind (mLit "Login".data)

def loginFailureMatchers : List (List Char → Option (List Char)) :=
  [ mLit "Login Details Incorrect".data
  , mInvalidLogin
  , mLit "登录失败".data
  , mLit "邮箱或密码错误".data
  , mLit "Email Address or Password".data
  , mLit "sign in was incorrect".data ]

/-- The logged-in indicator patterns (source lines 221-228), all literals. -/
def loggedInMatchers : List (List Char → Option (List Char)) :=
  [ mLit "Logout".data
  , mLit "退出".data
  , mLit "Client Area".data
  , mLit "客户中心".data
  , mLit "我的资料".data
  , mLit "服务".data ]

/-- Outcome classification of `login_whmcs` (source lines 152-233) given
the login-page GET response, the POST response, and the client-area GET
response. -/
def login_whmcs_classify (loginPage postResp clientArea : HtmlResponse) : String × String :=
  if is_2fa_or_human_challenge loginPage.text loginPage.url then
    (TWO_FA, "2FA or human verification detected on login page")
  else if is_2fa_or_human_challenge postResp.text postResp.url then
    (TWO_FA, "2FA or human verification challenge detected after login")
  else if searchAnyM loginFailureMatchers postResp.text.data then
    (FAILED, "Invalid credentials or login failed")
  else if is_2fa_or_human_challenge clientArea.text clientArea.url then
    (TWO_FA, "2FA or human verification detected in client area")
  else if searchAnyM loggedInMatchers clientArea.text.data then
    (SUCCESS, "Logged in")
  else
    (FAILED, "Unable to confirm login")

/-- The classification ladder exactly as the claim states it: challenge
on the login-page GET, else failure phrase on the POST body, else
logged-in indicator on the dashboard body, else failure.  Written from
the claim's words, to be compared with `login_whmcs_classify`. -/
def login_classify_claimed (loginPage postResp clientArea : HtmlResponse) : String :=
  if is_2fa_or_human_challenge loginPage.text loginPage.url then TWO_FA
  else if searchAnyM loginFailureMatchers postResp.text.data then FAILED
  else if searchAnyM loggedInMatchers clientArea.text.data then SUCCESS
  else FAILED

/-- The amended ladder: as claimed, but with the challenge detector also
consulted on the POST response (before the failure-phrase test) and on
the dashboard response (before the logged-in test), as the source does. -/
def login_classify_amended (loginPage postResp clientArea : HtmlResponse) : String :=
  if is_2fa_or_human_challenge loginPage.text loginPage.url then TWO_FA
  else if is_2fa_or_human_challenge postResp.text postResp.url then TWO_FA
  else if searchAnyM loginFailureMatchers postResp.text.data then FAILED
  else if is_2fa_or_human_challenge clientArea.text clientArea.url then TWO_FA
  else if searchAnyM loggedInMatchers clientArea.text.data then SUCCESS
  else FAILED

/-! ## Login form selection (source lines 169-187)

The submission target: iterate `soup.find_all("form")` in document order
and take the first form that either has a truthy `action` matching
`/login`, or contains both a `username`-named and a `password`-named
input.  A form is modelled by its optional `action` attribute and the
names of its inputs. -/

structure Form where
  action : Option String
  inputNames : List String
deriving DecidableEq, Repr

/-- First loop condition: `f.get("action") and re.search(r"/login", f.get("action"), re.I)`. -/
def form_matches_login_action (f : Form) : Bool :=
  match f.action with
  | some a => a ≠ "" && searchSome (mLit "/login".data) a.data
  | none => false

/-- Second loop condition: the form contains both a `username` and a
`password` input. -/
def form_has_credentials (f : Form) : Bool :=
  f.inputNames.contains "username" && f.inputNames.contains "password"

/-- Either break condition of the form loop. -/
def form_qualifies (f : Form) : Bool :=
  form_matches_login_action f || form_has_credentials f

/-- The `for f in soup.find_all("form")` loop: first form, in document
order, satisfying either break condition. -/
def pick_login_form : List Form → Option Form
  | [] => none
  | f :: rest => if form_qualifies f then some f else pick_login_form rest

/-- Modelled from `urllib.parse.urljoin` for the URL shapes this script
uses: an absolute `scheme://host` base, and a reference that is empty, an
absolute URL, a path-absolute `/...` reference, or a relative path
(resolved against the base's directory; dot segments and query/fragment
subtleties are not needed by any claim and are not modelled). -/
def afterScheme : List Char → Option (List Char × List Char)
  | ':' :: '/' :: '/' :: rest => some ([':', '/', '/'], rest)
  | c :: rest => (afterScheme rest).map (fun p => (c :: p.1, p.2))
  | [] => none

/-- The `scheme://host` part of an absolute URL. -/
def urlOrigin (u : List Char) : List Char :=
  match afterScheme u with
  | some (pre, rest) => pre ++ rest.takeWhile (fun c => c ≠ '/')
  | none => u.takeWhile (fun c => c ≠ '/')

/-- Everything up to and including the last '/' of the base's path. -/
def dropLastSegment (u : List Char) : List Char :=
  ((u.reverse.dropWhile (fun c => c ≠ '/')).reverse)

/-- Modelled from `urllib.parse.urljoin` (see `afterScheme`). -/
def urljoin (base rel : String) : String :=
  if rel = "" then base
  else if (mLit "http://".data rel.data).isSome || (mLit "https://".data rel.data).isSome then rel
  else
    match rel.data with
    | '/' :: _ => String.mk (urlOrigin base.data ++ rel.data)
    | _ => String.mk (dropLastSegment base.data ++ rel.data)

/-- The `post_url` computation (source lines 169-187): default to the
login page's URL; if the loop picked a form with a truthy `action`,
resolve that action against the base URL. -/
def resolve_post_url (base loginUrl : String) (forms : List Form) : String :=
  match pick_login_form forms with
  | some f =>
    match f.action with
    | some a => if a = "" then loginUrl else urljoin base a
    | none => loginUrl
  | none => loginUrl

/-! ## Check-in result classification (source lines 378-386)

The HTML-case classification at the end of `perform_checkin`, reached
when the response is not JSON-typed: the already-checked-in patterns are
tested before the success patterns, then the challenge detector, then
failure. -/

def alreadyMatchers : List (List Char → Option (List Char)) :=
  [ mLit "今日已签到".data, mLit "已签到".data, mLit "already".data ]

def checkinSuccessMatchers : List (List Char → Option (List Char)) :=
  [ mLit "签到成功".data, mLit "成功".data, mLit "success".data ]

/-- `perform_checkin`'s HTML result classification (source lines
378-386), as a function of the final response body and URL. -/
def checkin_html_classify (text url : String) : String × String :=
  if searchAnyM alreadyMatchers text.data then (ALREADY, "Already checked in today")
  else if searchAnyM checkinSuccessMatchers text.data then (SUCCESS, "Check-in success")
  else if is_2fa_or_human_challenge text url then
    (TWO_FA, "2FA or human verification encountered during check-in")
  else (FAILED, "Unable to determine check-in result")

/-! ## Orchestrator (source lines 36-58 and 402-521, `main`)

An account record is a JSON object; `account.get(k)` yields `none` for a
missing key.  The login and check-in steps are oracles indexed by the
account's position, each yielding either a returned `(status, detail)`
pair or a raised exception; delays, logging and the Telegram summary
(time- and I/O-only effects) are omitted.  A Python exception escaping
`main` is modelled as `Except.error`; such a run terminates the process
through the interpreter's uncaught-exception path. -/

/-- Python `str.strip()` on the whitespace the script can meet. -/
def pyStrip (s : List Char) : List Char :=
  ((s.dropWhile (fun c => pyWhitespace.contains c)).reverse.dropWhile
    (fun c => pyWhitespace.contains c)).reverse

structure Account where
  label : Option String
  email : Option String
  password : Option String
  base_url : Option String
  tg_chat_id : Option String
deriving DecidableEq, Repr

/-- `mask_email(email)` (source lines 41-50).  `email.split("@", 1)`
raising `ValueError` (no `@`) is caught and yields `"***"`; but when the
local part is empty, `local[0]` raises an uncaught `IndexError`. -/
def splitFirstAt : List Char → Option (List Char × List Char)
  | [] => none
  | c :: cs =>
    if c = '@' then some ([], cs)
    else (splitFirstAt cs).map (fun p => (c :: p.1, p.2))

/-- See `splitFirstAt`. -/
def mask_email (email : List Char) : Except String (List Char) :=
  match splitFirstAt email with
  | none => .ok "***".data
  | some (loc, domain) =>
    if loc.length ≤ 2 then
      match loc with
      | [] => .error "IndexError: string index out of range"
      | c :: _ => .ok (c :: List.replicate (loc.length - 1) '*' ++ '@' :: domain)
    else
      match loc with
      | [] => .error "IndexError: string index out of range"
      | c :: rest =>
        .ok (c :: List.replicate (loc.length - 2) '*' ++ rest.getLastD c :: '@' :: domain)

/-- `safe_label(account)` (source lines 53-58). -/
def safe_label (acc : Account) : Except String (List Char) :=
  let label := pyStrip (acc.label.getD "").data
  if label ≠ [] then .ok label
  else
    let email := pyStrip (acc.email.getD "").data
    if email ≠ [] then mask_email email else .ok "(no-label)".data

/-- Result of one call into `login_whmcs` or `perform_checkin`: either a
returned `(status, detail)` pair or a raised exception. -/
inductive StepResult where
  | ok (status detail : String)
  | exn (msg : String)
deriving DecidableEq, Repr

/-- What one iteration of the account loop records: the `(status, detail)`
appended to `results`, and whether `login_whmcs` / `perform_checkin` were
invoked at all (every HTTP request of the iteration happens inside those
two calls). -/
structure ProcResult where
  status : String
  detail : String
  loginInvoked : Bool
  checkinInvoked : Bool
deriving DecidableEq, Repr

/-- One iteration of the `for idx, account in enumerate(accounts)` loop
(source lines 425-483), given this account's login and check-in step
results. -/
def processAccount (acc : Account) (login checkin : StepResult) :
    Except String ProcResult :=
  match safe_label acc with
  | .error e => .error e
  | .ok _ =>
    if pyStrip (acc.email.getD "").data = [] || pyStrip (acc.password.getD "").data = [] then
      .ok (ProcResult.mk FAILED "Missing credentials" false false)
    else
      match login with
      | .exn e => .ok (ProcResult.mk FAILED ("Login error: " ++ e) true false)
      | .ok s d =>
        if s = TWO_FA then .ok (ProcResult.mk TWO_FA d true false)
        else if s ≠ SUCCESS then .ok (ProcResult.mk FAILED d true false)
        else
          match checkin with
          | .exn e => .ok (ProcResult.mk FAILED ("Check-in error: " ++ e) true true)
          | .ok s2 d2 => .ok (ProcResult.mk s2 d2 true true)

/-- The whole account loop; an uncaught exception aborts the run. -/
def runAccounts (login checkin : Nat → StepResult) :
    List Account → Nat → Except String (List ProcResult)
  | [], _ => .ok []
  | a :: rest, idx =>
    match processAccount a (login idx) (checkin idx) with
    | .error e => .error e
    | .ok r =>
      match runAccounts login checkin rest (idx + 1) with
      | .error e => .error e
      | .ok rs => .ok (r :: rs)

/-- The exit-code policy (source lines 516-521): 1 exactly when every
recorded result is a hard (`FAILED`) one and at least one account was
processed. -/
def exit_code (results : List ProcResult) : Nat :=
  let total := results.length
  let hard := (results.filter (fun r => r.status == FAILED)).length
  if hard = total ∧ 0 < total then 1 else 0

/-- The configuration input `main` reads (source lines 403-414): the
`ACCOUNTS` environment variable may be absent, may fail to decode as a
JSON array, or yields a list of account records. -/
inductive ConfigInput where
  | missing
  | invalid (msg : String)
  | accounts (accs : List Account)

/-- `main()` (source lines 402-521): returns the process exit code, or
`Except.error` for an exception escaping `main` (the interpreter then
terminates the process with exit status 1). -/
def mainRun (cfg : ConfigInput) (login checkin : Nat → StepResult) : Except String Nat :=
  match cfg with
  | .missing => .ok 0
  | .invalid _ => .ok 1
  | .accounts accs =>
    match runAccounts login checkin accs 0 with
    | .error e => .error e
    | .ok results => .ok (exit_code results)

/-! ## Search lemmas -/

/-- A literal matcher accepts its own pattern as a prefix of the input. -/
theorem mLit_self_append (p t : List Char) : mLit p (p ++ t) = some t := by
  induction p with
  | nil => rfl
  | cons a p ih => simp [mLit, chEqCI, ih]

/-- `re.search` with a literal pattern succeeds whenever the pattern
occurs verbatim as an infix of the text. -/
theorem searchSome_of_substring (p l : List Char) (h : p <:+: l) :
    searchSome (mLit p) l = true := by
  obtain ⟨s, t, rfl⟩ := h
  apply List.any_eq_true.mpr
  refine ⟨p ++ t, ?_, ?_⟩
  · exact (List.mem_tails _ _).mpr ⟨s, by rw [List.append_assoc]⟩
  · simp [mLit_self_append]

/-- If one matcher of the list succeeds somewhere, the `any` over the
pattern list succeeds. -/
theorem searchAnyM_of_mem (ms : List (List Char → Option (List Char)))
    (m : List Char → Option (List Char)) (l : List Char)
    (hm : m ∈ ms) (hs : searchSome m l = true) : searchAnyM ms l = true := by
  exact List.any_eq_true.mpr ⟨m, hm, hs⟩

/-- C5: in the check-in executor's HTML classification, the
already-checked-in check runs before the generic success check: any body
containing the substring "已签到" — in particular one containing both
"已签到" and "签到成功" — classifies as already-done, never as success. -/
theorem c5_already_tested_before_success (text url : String)
    (h1 : "已签到".data <:+: text.data) (_h2 : "签到成功".data <:+: text.data) :
    checkin_html_classify text url = (ALREADY, "Already checked in today") ∧
    (checkin_html_classify text url).1 ≠ SUCCESS := by
  have hs : searchAnyM alreadyMatchers text.data = true := by
    refine searchAnyM_of_mem _ (mLit "已签到".data) _ ?_ (searchSome_of_substring _ _ h1)
    simp [alreadyMatchers]
  refine ⟨by simp [checkin_html_classify, hs], ?_⟩
  simp [checkin_html_classify, hs, ALREADY, SUCCESS]

/-- C5 witness: a concrete body restating a past success message next to
the already-checked-in notice classifies as already-done. -/
theorem c5_already_tested_before_success_witness :
    checkin_html_classify "今日已签到，昨日签到成功" "" = (ALREADY, "Already checked in today") ∧
    (checkin_html_classify "今日已签到，昨日签到成功" "").1 ≠ SUCCESS :=
  c5_already_tested_before_success "今日已签到，昨日签到成功" "" (by decide) (by decide)

/-- C2 counterexample: the two-factor URL pattern matches the URL "2fa",
yet the detector returns false on it when the body text is empty, because
of the early `if not text: return False` guard — refuting "for any
finalUrl matching the two-factor pattern it returns true regardless of
the bodyText". -/
theorem c2_counterexample_empty_body :
    searchSome mTwoFaUrl "2fa".data = true ∧
    is_2fa_or_human_challenge "" "2fa" = false := by
  decide

/-- C2 (amended): provided the body text is non-empty, the detector
returns true if the body matches one of the challenge phrase patterns or
the final URL matches the two-factor pattern; an empty body always yields
false, whatever the URL. -/
theorem c2_challenge_detector_disjunction (text url : String) :
    (text ≠ "" →
      (searchAnyM challengeMatchers text.data = true ∨ searchSome mTwoFaUrl url.data = true) →
      is_2fa_or_human_challenge text url = true) ∧
    is_2fa_or_human_challenge "" url = false := by
  constructor
  · intro ht h
    rcases h with h | h <;> simp [is_2fa_or_human_challenge, ht, h]
  · simp [is_2fa_or_human_challenge]

/-- C2 witness: a URL carrying a two-factor marker, with a non-empty but
unremarkable body, trips the detector. -/
theorem c2_challenge_detector_disjunction_witness :
    is_2fa_or_human_challenge "some page" "https://p/2fa" = true ∧
    is_2fa_or_human_challenge "" "https://p/2fa" = false :=
  ⟨(c2_challenge_detector_disjunction "some page" "https://p/2fa").1 (by decide)
      (Or.inr (by decide)),
    (c2_challenge_detector_disjunction "some page" "https://p/2fa").2⟩

/-- C4 counterexample: a clean login page followed by a POST response
whose body contains both a login-failure phrase ("Invalid Login") and a
challenge phrase ("验证码").  The claim's ladder classifies this Failed
(the failure-phrase test is its second rung), but the source checks the
challenge detector on the POST response first and returns the 2FA
outcome. -/
theorem c4_counterexample_post_challenge :
    login_classify_claimed (HtmlResponse.mk "Welcome, please log in" "https://p/login")
      (HtmlResponse.mk "Invalid Login 验证码" "https://p/login") (HtmlResponse.mk "" "") = FAILED ∧
    login_whmcs_classify (HtmlResponse.mk "Welcome, please log in" "https://p/login")
      (HtmlResponse.mk "Invalid Login 验证码" "https://p/login") (HtmlResponse.mk "" "")
      = (TWO_FA, "2FA or human verification challenge detected after login") ∧
    TWO_FA ≠ FAILED := by
  decide

/-- C4 (amended): the authentication flow classifies outcomes by the
claim's ladder with the challenge detector also consulted on the POST
response (before the failure-phrase test) and on the dashboard response
(before the logged-in test): see `login_classify_amended`.  The
final-rung outcome carries the detail "Unable to confirm login". -/
theorem c4_login_outcome_ladder (g p c : HtmlResponse) :
    (login_whmcs_classify g p c).1 = login_classify_amended g p c ∧
    (is_2fa_or_human_challenge g.text g.url = false →
      is_2fa_or_human_challenge p.text p.url = false →
      searchAnyM loginFailureMatchers p.text.data = false →
      is_2fa_or_human_challenge c.text c.url = false →
      searchAnyM loggedInMatchers c.text.data = false →
      login_whmcs_classify g p c = (FAILED, "Unable to confirm login")) := by
  constructor
  · by_cases h1 : is_2fa_or_human_challenge g.text g.url = true <;>
    by_cases h2 : is_2fa_or_human_challenge p.text p.url = true <;>
    by_cases h3 : searchAnyM loginFailureMatchers p.text.data = true <;>
    by_cases h4 : is_2fa_or_human_challenge c.text c.url = true <;>
    by_cases h5 : searchAnyM loggedInMatchers c.text.data = true <;>
    simp [login_whmcs_classify, login_classify_amended, h1, h2, h3, h4, h5]
  · intro h1 h2 h3 h4 h5
    simp [login_whmcs_classify, h1, h2, h3, h4, h5]

/-- C4 witness: an uninformative dashboard after a clean login attempt
yields the conservative failure outcome. -/
theorem c4_login_outcome_ladder_witness :
    (login_whmcs_classify (HtmlResponse.mk "form" "u") (HtmlResponse.mk "ok" "u")
        (HtmlResponse.mk "page" "u")).1
      = login_classify_amended (HtmlResponse.mk "form" "u") (HtmlResponse.mk "ok" "u")
        (HtmlResponse.mk "page" "u") ∧
    login_whmcs_classify (HtmlResponse.mk "form" "u") (HtmlResponse.mk "ok" "u")
        (HtmlResponse.mk "page" "u")
      = (FAILED, "Unable to confirm login") :=
  ⟨(c4_login_outcome_ladder (HtmlResponse.mk "form" "u") (HtmlResponse.mk "ok" "u")
      (HtmlResponse.mk "page" "u")).1,
    (c4_login_outcome_ladder (HtmlResponse.mk "form" "u") (HtmlResponse.mk "ok" "u")
      (HtmlResponse.mk "page" "u")).2 (by decide) (by decide) (by decide) (by decide) (by decide)⟩

/-! ## Retry-loop lemmas -/

/-- A failing attempt (raised error or 5xx status) makes the loop body
produce an error. -/
theorem attemptOnce_fails_error (call : Nat → Except String HttpResp) (i : Nat)
    (h : attemptFails (call i) = true) : ∃ e, attemptOnce call i = .error e := by
  cases hc : call i with
  | error e => exact ⟨e, by simp [attemptOnce, hc]⟩
  | ok r =>
    have hle : 500 ≤ r.status := by simpa [attemptFails, hc] using h
    exact ⟨"Server error: " ++ toString r.status, by simp [attemptOnce, hc, hle]⟩

/-- A successful attempt with status below 500 is returned as-is. -/
theorem http_request_go_ok (call : Nat → Except String HttpResp) (a rem : Nat)
    (r : HttpResp) (h : call a = .ok r) (h2 : r.status < 500) :
    http_request_go call a (rem + 1) = .ok r := by
  simp [http_request_go, attemptOnce, h, Nat.not_le.mpr h2]

/-- A failing attempt with attempts remaining moves the loop on. -/
theorem http_request_go_fail_step (call : Nat → Except String HttpResp) (a rem : Nat)
    (h : attemptFails (call a) = true) (hrem : rem ≠ 0) :
    http_request_go call a (rem + 1) = http_request_go call (a + 1) rem := by
  obtain ⟨e, he⟩ := attemptOnce_fails_error call a h
  simp [http_request_go, he, hrem]

/-- A failing final attempt re-raises. -/
theorem http_request_go_fail_last (call : Nat → Except String HttpResp) (a : Nat)
    (h : attemptFails (call a) = true) : ∃ e, http_request_go call a 1 = .error e := by
  obtain ⟨e, he⟩ := attemptOnce_fails_error call a h
  exact ⟨e, by simp [http_request_go, he]⟩

/-- C6: with the default 3 attempts, a transport failing (5xx or network
error) on the first two attempts and succeeding on the third returns the
successful response; failing on all three attempts raises a terminal
error; and any response with status below 500 is returned as-is on the
attempt it occurs, with no further attempts consulted. -/
theorem c6_http_request_retry (call : Nat → Except String HttpResp) (r : HttpResp) :
    (attemptFails (call 0) = true → attemptFails (call 1) = true →
      call 2 = .ok r → r.status < 500 → http_request call 3 = .ok r) ∧
    (attemptFails (call 0) = true → attemptFails (call 1) = true →
      attemptFails (call 2) = true → ∃ e, http_request call 3 = .error e) ∧
    (∀ i, i < 3 → (∀ j, j < i → attemptFails (call j) = true) →
      call i = .ok r → r.status < 500 → http_request call 3 = .ok r) := by
  refine ⟨?_, ?_, ?_⟩
  · intro h0 h1 h2 hlt
    show http_request_go call 0 3 = .ok r
    rw [http_request_go_fail_step call 0 2 h0 (by omega),
      http_request_go_fail_step call 1 1 h1 (by omega)]
    exact http_request_go_ok call 2 0 r h2 hlt
  · intro h0 h1 h2
    show ∃ e, http_request_go call 0 3 = .error e
    rw [http_request_go_fail_step call 0 2 h0 (by omega),
      http_request_go_fail_step call 1 1 h1 (by omega)]
    exact http_request_go_fail_last call 2 h2
  · intro i hi hprev hok hlt
    show http_request_go call 0 3 = .ok r
    match i, hi with
    | 0, _ => exact http_request_go_ok call 0 2 r hok hlt
    | 1, _ =>
      rw [http_request_go_fail_step call 0 2 (hprev 0 (by omega)) (by omega)]
      exact http_request_go_ok call 1 1 r hok hlt
    | 2, _ =>
      rw [http_request_go_fail_step call 0 2 (hprev 0 (by omega)) (by omega),
        http_request_go_fail_step call 1 1 (hprev 1 (by omega)) (by omega)]
      exact http_request_go_ok call 2 0 r hok hlt

/-- C6 witness: a stub answering 500, then a network error, then 200
makes `http_request` return the final 200 response; and a stub answering
404 on the first attempt returns the 404 response as-is. -/
theorem c6_http_request_retry_witness :
    http_request
      (fun i => if i = 0 then Except.ok (HttpResp.mk 500 "e") else
        if i = 1 then Except.error "timeout" else Except.ok (HttpResp.mk 200 "ok")) 3
      = Except.ok (HttpResp.mk 200 "ok") ∧
    http_request (fun _ => Except.ok (HttpResp.mk 404 "missing")) 3
      = Except.ok (HttpResp.mk 404 "missing") :=
  ⟨(c6_http_request_retry
      (fun i => if i = 0 then Except.ok (HttpResp.mk 500 "e") else
        if i = 1 then Except.error "timeout" else Except.ok (HttpResp.mk 200 "ok"))
      (HttpResp.mk 200 "ok")).1 (by decide) (by decide) (by rfl) (by decide),
    ((c6_http_request_retry (fun _ => Except.ok (HttpResp.mk 404 "missing"))
      (HttpResp.mk 404 "missing")).2.2 0 (by decide) (by omega) (by rfl) (by decide))⟩

/-! ## Orchestrator gating lemmas -/

/-- If an iteration of the account loop completes and reached the
check-in call, the login step must have returned the `success` status. -/
theorem processAccount_checkin_gate (acc : Account) (login checkin : StepResult)
    (r : ProcResult) (hp : processAccount acc login checkin = .ok r)
    (hc : r.checkinInvoked = true) : ∃ d, login = StepResult.ok SUCCESS d := by
  cases login with
  | exn e =>
    exfalso
    simp only [processAccount] at hp
    split at hp
    · simp at hp
    · split at hp
      · simp only [Except.ok.injEq] at hp
        subst hp
        simp at hc
      · simp only [Except.ok.injEq] at hp
        subst hp
        simp at hc
  | ok s d =>
    simp only [processAccount] at hp
    split at hp
    · simp at hp
    · split at hp
      · simp only [Except.ok.injEq] at hp
        subst hp
        simp at hc
      · split at hp
        · simp only [Except.ok.injEq] at hp
          subst hp
          simp at hc
        · split at hp
          · simp only [Except.ok.injEq] at hp
            subst hp
            simp at hc
          · rename_i hne
            exact ⟨d, by rw [not_not.mp hne]⟩

/-- Contrapositive form: any login step result other than a returned
`success` status leaves the check-in step uninvoked. -/
theorem processAccount_no_checkin (acc : Account) (login checkin : StepResult)
    (r : ProcResult) (hp : processAccount acc login checkin = .ok r)
    (h : ∀ d, login ≠ StepResult.ok SUCCESS d) : r.checkinInvoked = false := by
  by_contra hc
  obtain ⟨d, hd⟩ := processAccount_checkin_gate acc login checkin r hp
    (by simpa using hc)
  exact h d hd

/-- C1: the check-in step runs only when the account's authentication
outcome is exactly the `success` status; a 2FA outcome, a non-success
status, or an exception during login leaves an outcome recorded for the
account without the check-in step being invoked. -/
theorem c1_checkin_requires_login_success (acc : Account) (login checkin : StepResult)
    (r : ProcResult) :
    (processAccount acc login checkin = .ok r → r.checkinInvoked = true →
      ∃ d, login = StepResult.ok SUCCESS d) ∧
    (∀ d, login = StepResult.ok TWO_FA d → processAccount acc login checkin = .ok r →
      r.checkinInvoked = false) ∧
    (∀ s d, login = StepResult.ok s d → s ≠ SUCCESS →
      processAccount acc login checkin = .ok r → r.checkinInvoked = false) ∧
    (∀ e, login = StepResult.exn e → processAccount acc login checkin = .ok r →
      r.checkinInvoked = false) := by
  refine ⟨fun hp hc => processAccount_checkin_gate acc login checkin r hp hc, ?_, ?_, ?_⟩
  · intro d hd hp
    refine processAccount_no_checkin acc login checkin r hp ?_
    subst hd
    intro d' h'
    simp only [StepResult.ok.injEq] at h'
    exact absurd h'.1 (by decide)
  · intro s d hd hs hp
    refine processAccount_no_checkin acc login checkin r hp ?_
    subst hd
    intro d' h'
    simp only [StepResult.ok.injEq] at h'
    exact hs h'.1
  · intro e he hp
    refine processAccount_no_checkin acc login checkin r hp ?_
    subst he
    intro d' h'
    cases h'

/-- C1 witness: a failed-status login leaves the check-in step uninvoked
in the recorded iteration result. -/
theorem c1_checkin_requires_login_success_witness :
    (ProcResult.mk FAILED "Invalid credentials or login failed" true false).checkinInvoked
      = false :=
  (c1_checkin_requires_login_success
      (Account.mk none (some "a@b.com") (some "pw") none none)
      (StepResult.ok FAILED "Invalid credentials or login failed")
      (StepResult.ok SUCCESS "Check-in success")
      (ProcResult.mk FAILED "Invalid credentials or login failed" true false)).2.2.1
    FAILED "Invalid credentials or login failed" rfl (by decide) (by rfl)

/-! ## Form-selection lemmas -/

/-- If no form satisfies either break condition, the loop leaves `form`
unset. -/
theorem pick_login_form_none (forms : List Form)
    (h : ∀ g ∈ forms, form_qualifies g = false) : pick_login_form forms = none := by
  induction forms with
  | nil => rfl
  | cons a t ih =>
    simp only [pick_login_form, h a (by simp)]
    exact ih (fun g hg => h g (by simp [hg]))

/-- The loop picks the first form, in document order, satisfying either
break condition. -/
theorem pick_login_form_first (pre : List Form) (f : Form) (post : List Form)
    (h : ∀ g ∈ pre, form_qualifies g = false) (hf : form_qualifies f = true) :
    pick_login_form (pre ++ f :: post) = some f := by
  induction pre with
  | nil => simp [pick_login_form, hf]
  | cons a t ih =>
    simp only [List.cons_append, pick_login_form, h a (by simp)]
    exact ih (fun g hg => h g (by simp [hg]))

/-- C8 counterexample: a login page whose first form carries username and
password inputs (action "/auth") and whose second form's action matches
"/login".  The claim says the POST goes to the "/login"-action form's
resolved URL; the source's single loop breaks on the first form matching
either condition, so the POST goes to "/auth" instead. -/
theorem c8_counterexample_document_order :
    form_matches_login_action (Form.mk (some "/index.php?rp=/login") []) = true ∧
    form_has_credentials (Form.mk (some "/auth") ["username", "password"]) = true ∧
    resolve_post_url "https://panel.freecloud.ltd" "https://panel.freecloud.ltd/index.php?rp=/login"
      [Form.mk (some "/auth") ["username", "password"], Form.mk (some "/index.php?rp=/login") []]
      = "https://panel.freecloud.ltd/auth" ∧
    urljoin "https://panel.freecloud.ltd" "/index.php?rp=/login"
      ≠ "https://panel.freecloud.ltd/auth" := by
  decide

/-- C8 (amended): the POST target comes from the first form in document
order satisfying either condition — an action matching "/login", or both
a username-named and a password-named input; that form's non-empty action
is resolved against the base URL (a picked form with no or empty action,
or no qualifying form at all, leaves the login page's own URL). -/
theorem c8_post_target_selection (base loginUrl : String) (pre post : List Form) (f : Form) :
    ((∀ g ∈ pre, form_qualifies g = false) → form_qualifies f = true →
      resolve_post_url base loginUrl (pre ++ f :: post) =
        (match f.action with
          | some a => if a = "" then loginUrl else urljoin base a
          | none => loginUrl)) ∧
    ((∀ g ∈ pre, form_qualifies g = false) → resolve_post_url base loginUrl pre = loginUrl) := by
  constructor
  · intro h hf
    unfold resolve_post_url
    rw [pick_login_form_first pre f post h hf]
  · intro h
    unfold resolve_post_url
    rw [pick_login_form_none pre h]

/-- C8 witness: with only a username/password form (no "/login"-action
form anywhere), that form's action is the POST target. -/
theorem c8_post_target_selection_witness :
    resolve_post_url "https://panel.freecloud.ltd" "https://panel.freecloud.ltd/index.php?rp=/login"
      ([] ++ Form.mk (some "/dologin.php") ["username", "password"] :: [])
      = "https://panel.freecloud.ltd/dologin.php" := by
  have h := (c8_post_target_selection "https://panel.freecloud.ltd"
      "https://panel.freecloud.ltd/index.php?rp=/login" [] []
      (Form.mk (some "/dologin.php") ["username", "password"])).1
    (by simp) (by decide)
  simpa using h

/-! ## Token-extractor lemmas -/

/-- `takeWhile` runs through an all-satisfying block up to the first
failing element. -/
theorem takeWhile_append_all (p : Char → Bool) (v : List Char)
    (h : ∀ c ∈ v, p c = true) (x : Char) (hx : p x = false) (rest : List Char) :
    (v ++ x :: rest).takeWhile p = v := by
  induction v with
  | nil => simp [List.takeWhile_cons, hx]
  | cons a t ih =>
    simp [List.cons_append, List.takeWhile_cons, h a (by simp),
      ih (fun c hc => h c (by simp [hc]))]

/-- `dropWhile` counterpart of `takeWhile_append_all`. -/
theorem dropWhile_append_all (p : Char → Bool) (v : List Char)
    (h : ∀ c ∈ v, p c = true) (x : Char) (hx : p x = false) (rest : List Char) :
    (v ++ x :: rest).dropWhile p = x :: rest := by
  induction v with
  | nil => simp [List.dropWhile_cons, hx]
  | cons a t ih =>
    simp [List.cons_append, List.dropWhile_cons, h a (by simp),
      ih (fun c hc => h c (by simp [hc]))]

/-- The capture group `([^"']+)["']` consumes exactly a non-empty block
of non-quote characters terminated by a quote. -/
theorem mCapture_append_quote (v : List Char) (hne : v ≠ [])
    (h : ∀ c ∈ v, quoteChars.contains c = false) (q : Char)
    (hq : quoteChars.contains q = true) (rest : List Char) :
    mCapture (v ++ q :: rest) = some (v, rest) := by
  have hp : ∀ c ∈ v, (fun c => !quoteChars.contains c) c = true := by
    intro c hc
    show (!quoteChars.contains c) = true
    rw [h c hc]
    rfl
  have hx : (fun c => !quoteChars.contains c) q = false := by
    show (!quoteChars.contains q) = false
    rw [hq]
    rfl
  have hvE : v.isEmpty = false := by
    cases v with
    | nil => exact absurd rfl hne
    | cons a t => rfl
  simp only [mCapture]
  rw [takeWhile_append_all _ v hp q hx rest, dropWhile_append_all _ v hp q hx rest, hvE]
  show (if quoteChars.contains q = true then some (v, rest) else none) = some (v, rest)
  rw [hq]
  rfl

/-- `re.search` moves one position right when the regex does not match
here. -/
theorem tokenRegexSearch_skip (c : Char) (cs : List Char)
    (hh : tokenMatchAt (c :: cs) = none) :
    tokenRegexSearch (c :: cs) = tokenRegexSearch cs := by
  unfold tokenRegexSearch
  rw [List.tails_cons, List.findSome?_cons, hh]

/-- `re.search` returns the group of a match at the current position. -/
theorem tokenRegexSearch_found (c : Char) (cs tok : List Char)
    (hh : tokenMatchAt (c :: cs) = some tok) :
    tokenRegexSearch (c :: cs) = some tok := by
  unfold tokenRegexSearch
  rw [List.tails_cons, List.findSome?_cons, hh]

/-- The part of the synthetic input element from its `name` attribute on:
`name=[q]token[q] value=[q]` followed by `l`. -/
def tokenNameTail (q : Char) (l : List Char) : List Char :=
  'n' :: 'a' :: 'm' :: 'e' :: '=' :: q :: 't' :: 'o' :: 'k' :: 'e' :: 'n' :: q ::
  ' ' :: 'v' :: 'a' :: 'l' :: 'u' :: 'e' :: '=' :: q :: l

/-- The synthetic form of the claim, with the `name` attribute written
before the `value` attribute and a single quoting character `q` used
throughout: `<input name=[q]token[q] value=[q]...[q]>`. -/
def mkInputHtml (q : Char) (v : List Char) : List Char :=
  '<' :: 'i' :: 'n' :: 'p' :: 'u' :: 't' :: ' ' :: tokenNameTail q (v ++ [q, '>'])

/-- Searching the synthetic element: the regex cannot match at any of the
seven positions before the `name` attribute, so the search result is the
match at the `name` position. -/
theorem tokenRegexSearch_mkShape (q : Char) (l tok : List Char)
    (hm : tokenMatchAt (tokenNameTail q l) = some tok) :
    tokenRegexSearch ('<' :: 'i' :: 'n' :: 'p' :: 'u' :: 't' :: ' ' :: tokenNameTail q l)
      = some tok := by
  have e0 : tokenRegexSearch ('<' :: 'i' :: 'n' :: 'p' :: 'u' :: 't' :: ' ' :: tokenNameTail q l)
      = tokenRegexSearch ('i' :: 'n' :: 'p' :: 'u' :: 't' :: ' ' :: tokenNameTail q l) :=
    tokenRegexSearch_skip _ _ rfl
  have e1 : tokenRegexSearch ('i' :: 'n' :: 'p' :: 'u' :: 't' :: ' ' :: tokenNameTail q l)
      = tokenRegexSearch ('n' :: 'p' :: 'u' :: 't' :: ' ' :: tokenNameTail q l) :=
    tokenRegexSearch_skip _ _ rfl
  have e2 : tokenRegexSearch ('n' :: 'p' :: 'u' :: 't' :: ' ' :: tokenNameTail q l)
      = tokenRegexSearch ('p' :: 'u' :: 't' :: ' ' :: tokenNameTail q l) :=
    tokenRegexSearch_skip _ _ rfl
  have e3 : tokenRegexSearch ('p' :: 'u' :: 't' :: ' ' :: tokenNameTail q l)
      = tokenRegexSearch ('u' :: 't' :: ' ' :: tokenNameTail q l) :=
    tokenRegexSearch_skip _ _ rfl
  have e4 : tokenRegexSearch ('u' :: 't' :: ' ' :: tokenNameTail q l)
      = tokenRegexSearch ('t' :: ' ' :: tokenNameTail q l) :=
    tokenRegexSearch_skip _ _ rfl
  have e5 : tokenRegexSearch ('t' :: ' ' :: tokenNameTail q l)
      = tokenRegexSearch (' ' :: tokenNameTail q l) :=
    tokenRegexSearch_skip _ _ rfl
  have e6 : tokenRegexSearch (' ' :: tokenNameTail q l)
      = tokenRegexSearch (tokenNameTail q l) :=
    tokenRegexSearch_skip _ _ rfl
  exact e0.trans (e1.trans (e2.trans (e3.trans (e4.trans (e5.trans
    (e6.trans (tokenRegexSearch_found _ _ _ hm)))))))

/-- The token regex finds the synthetic form's value for either quote
style. -/
theorem tokenRegexSearch_mkInput (v : List Char) (q : Char) (hne : v ≠ [])
    (h : ∀ c ∈ v, quoteChars.contains c = false) (hqc : q = '"' ∨ q = Char.ofNat 39) :
    tokenRegexSearch (mkInputHtml q v) = some v := by
  rcases hqc with rfl | rfl
  · refine tokenRegexSearch_mkShape '"' (v ++ ['"', '>']) v ?_
    show Option.map Prod.fst (mCapture (v ++ ['"', '>'])) = some v
    rw [mCapture_append_quote v hne h '"' rfl ['>']]
    rfl
  · refine tokenRegexSearch_mkShape (Char.ofNat 39) (v ++ [Char.ofNat 39, '>']) v ?_
    show Option.map Prod.fst (mCapture (v ++ [Char.ofNat 39, '>'])) = some v
    rw [mCapture_append_quote v hne h (Char.ofNat 39) rfl ['>']]
    rfl

/-- C3 counterexample: with the structured parser unavailable, an input
element written with the `value` attribute before the `name` attribute is
not found by the fallback regex, which requires `name` first — so the
extractor returns absence where the claim demands the value "X". -/
theorem c3_counterexample_value_before_name :
    extract_csrf_token none "<input value=\"X\" name=\"token\">".data = none ∧
    (none : Option (List Char)) ≠ some "X".data := by
  refine ⟨by decide, by decide⟩

/-- C3 (amended): the regex fallback tolerates the quoting style but not
the attribute order: with the structured parser unavailable, for every
non-empty quote-free value and either quote character, an input element
with `name="token"` written before `value="..."` round-trips to that
value. -/
theorem c3_token_fallback_name_first_either_quote (v : List Char) (q : Char) (hne : v ≠ [])
    (h : ∀ c ∈ v, quoteChars.contains c = false) (hqc : q = '"' ∨ q = Char.ofNat 39) :
    extract_csrf_token none (mkInputHtml q v) = some v := by
  have he : extract_csrf_token none (mkInputHtml q v) = tokenRegexSearch (mkInputHtml q v) := rfl
  rw [he, tokenRegexSearch_mkInput v q hne h hqc]

/-- C3 witness: the double-quoted synthetic form with value "X"
round-trips. -/
theorem c3_token_fallback_name_first_either_quote_witness :
    extract_csrf_token none (mkInputHtml '"' ['X']) = some ['X'] :=
  c3_token_fallback_name_first_either_quote ['X'] '"' (by decide) (by decide) (Or.inl rfl)

/-- A successful capture is non-empty: the group is `[^"']+`. -/
theorem mCapture_some_fst_ne_nil (l : List Char) (p : List Char × List Char)
    (h : mCapture l = some p) : p.1 ≠ [] := by
  simp only [mCapture] at h
  split at h
  · cases h
  · rename_i hEmpty
    split at h
    · cases h
    · split at h
      · injection h with h'
        subst h'
        intro hnil
        exact hEmpty (List.isEmpty_iff.mpr hnil)
      · cases h

/-- A successful match of the token regex yields a non-empty group. -/
theorem tokenMatchAt_some_ne_nil (l tok : List Char)
    (h : tokenMatchAt l = some tok) : tok ≠ [] := by
  simp only [tokenMatchAt] at h
  rw [Option.bind_eq_some] at h
  obtain ⟨a, _, h2⟩ := h
  obtain ⟨p, hp, hfst⟩ := Option.map_eq_some'.mp h2
  subst hfst
  exact mCapture_some_fst_ne_nil a p hp

/-- A successful search yields a non-empty group. -/
theorem tokenRegexSearch_some_ne_nil (l tok : List Char)
    (h : tokenRegexSearch l = some tok) : tok ≠ [] := by
  induction l with
  | nil =>
    rw [show tokenRegexSearch [] = none from rfl] at h
    cases h
  | cons c cs ih =>
    cases hm : tokenMatchAt (c :: cs) with
    | some t =>
      rw [tokenRegexSearch_found c cs t hm] at h
      injection h with h'
      rw [← h']
      exact tokenMatchAt_some_ne_nil _ t hm
    | none =>
      rw [tokenRegexSearch_skip c cs hm] at h
      exact ih h

/-- C9: whenever the token extractor returns a token — via the
structured-parse path (which requires a truthy `value` attribute) or via
the regex fallback (whose capture group needs at least one character) —
the returned string is non-empty. -/
theorem c9_token_extractor_returns_nonempty (bs : Option (Option (List Char)))
    (html tok : List Char) (h : extract_csrf_token bs html = some tok) : tok ≠ [] := by
  unfold extract_csrf_token at h
  split at h
  · cases h
  · split at h
    · split at h
      · exact tokenRegexSearch_some_ne_nil html tok h
      · rename_i hv
        injection h with h'
        rw [← h']
        exact hv
    · exact tokenRegexSearch_some_ne_nil html tok h

/-- C9 witness: a concrete regex-path extraction returns the non-empty
token "abc123". -/
theorem c9_token_extractor_returns_nonempty_witness : "abc123".data ≠ [] :=
  c9_token_extractor_returns_nonempty none
    "<input name=\"token\" value=\"abc123\">".data "abc123".data (by decide)

/-! ## Exit-policy lemmas -/

/-- A blank-credential account whose label computation succeeds is
recorded as a failed outcome with detail "Missing credentials", with
neither the login nor the check-in step invoked. -/
theorem processAccount_missing_creds (acc : Account) (login checkin : StepResult)
    (h1 : ∃ l, safe_label acc = .ok l)
    (h2 : pyStrip (acc.email.getD "").data = [] ∨ pyStrip (acc.password.getD "").data = []) :
    processAccount acc login checkin =
      .ok (ProcResult.mk FAILED "Missing credentials" false false) := by
  obtain ⟨l, hl⟩ := h1
  simp only [processAccount, hl]
  rcases h2 with h | h <;> simp [h]

/-- A run over blank-credential accounts (with working labels) records a
failed outcome for each. -/
theorem runAccounts_all_missing (loginO checkinO : Nat → StepResult) (accs : List Account)
    (h : ∀ a ∈ accs, (∃ l, safe_label a = .ok l) ∧
      (pyStrip (a.email.getD "").data = [] ∨ pyStrip (a.password.getD "").data = [])) :
    ∀ idx, runAccounts loginO checkinO accs idx =
      .ok (accs.map (fun _ => ProcResult.mk FAILED "Missing credentials" false false)) := by
  induction accs with
  | nil => intro idx; rfl
  | cons a t ih =>
    intro idx
    have hpa := processAccount_missing_creds a (loginO idx) (checkinO idx)
      (h a (by simp)).1 (h a (by simp)).2
    simp only [runAccounts, hpa, ih (fun x hx => h x (by simp [hx])) (idx + 1)]
    rfl

/-- The exit policy returns 1 exactly on a non-empty all-failed result
list. -/
theorem exit_code_all_failed (rs : List ProcResult) (hne : rs ≠ [])
    (h : ∀ r ∈ rs, r.status = FAILED) : exit_code rs = 1 := by
  unfold exit_code
  rw [List.filter_eq_self.mpr (fun a ha => by simp [h a ha])]
  simp [List.length_pos.mpr hne]

/-- C7: the exit-code policy of lines 516-521 (0 unless every recorded
outcome is a hard failure) is broken by a slip in `mask_email`: an
account with a blank label and an email whose local part is empty makes
`safe_label` raise `IndexError` (`local[0]` on an empty string), so a
run that has already recorded a Success still terminates through the
interpreter's uncaught-exception path (process exit status 1).  Without
the crashing account the same run exits 0, and the source's own comment
("non-zero exit only if all accounts failed due to non-2FA errors")
documents the intended policy. -/
theorem c7_exit_contract_broken_by_mask_email :
    mainRun (ConfigInput.accounts
        [Account.mk none (some "a@b.com") (some "pw") none none,
          Account.mk none (some "@x") (some "pw") none none])
      (fun _ => StepResult.ok SUCCESS "Logged in")
      (fun _ => StepResult.ok SUCCESS "Check-in success")
      = Except.error "IndexError: string index out of range" ∧
    processAccount (Account.mk none (some "a@b.com") (some "pw") none none)
      (StepResult.ok SUCCESS "Logged in") (StepResult.ok SUCCESS "Check-in success")
      = Except.ok (ProcResult.mk SUCCESS "Check-in success" true true) ∧
    mainRun (ConfigInput.accounts [Account.mk none (some "a@b.com") (some "pw") none none])
      (fun _ => StepResult.ok SUCCESS "Logged in")
      (fun _ => StepResult.ok SUCCESS "Check-in success") = Except.ok 0 ∧
    mainRun ConfigInput.missing (fun _ => StepResult.ok SUCCESS "")
      (fun _ => StepResult.ok SUCCESS "") = Except.ok 0 ∧
    mainRun (ConfigInput.invalid "Expecting value") (fun _ => StepResult.ok SUCCESS "")
      (fun _ => StepResult.ok SUCCESS "") = Except.ok 1 := by
  refine ⟨by rfl, by rfl, by rfl, by rfl, by rfl⟩

/-- C10 counterexample: an account with a blank password but an email
beginning with "@" and no label is not recorded as "Missing credentials":
`safe_label` runs before the credential check and its `mask_email` call
raises `IndexError` on the empty local part, aborting the run. -/
theorem c10_counterexample_label_crash :
    processAccount (Account.mk none (some "@x") (some "") none none)
      (StepResult.ok SUCCESS "Logged in") (StepResult.ok SUCCESS "Check-in success")
      = Except.error "IndexError: string index out of range" ∧
    (∀ r : ProcResult,
      processAccount (Account.mk none (some "@x") (some "") none none)
        (StepResult.ok SUCCESS "Logged in") (StepResult.ok SUCCESS "Check-in success")
        ≠ Except.ok r) := by
  refine ⟨by rfl, ?_⟩
  intro r hr
  rw [show processAccount (Account.mk none (some "@x") (some "") none none)
      (StepResult.ok SUCCESS "Logged in") (StepResult.ok SUCCESS "Check-in success")
      = Except.error "IndexError: string index out of range" from rfl] at hr
  cases hr

/-- C10 (amended): an account whose email or password is blank after
stripping — provided its label computation succeeds (a non-blank label,
or a maskable email) — is recorded as Failed with detail "Missing
credentials" with neither step invoked (so no HTTP request is issued for
it), and a non-empty run made solely of such accounts exits with code 1. -/
theorem c10_missing_credentials_policy (acc : Account) (login checkin : StepResult) :
    ((∃ l, safe_label acc = .ok l) →
      (pyStrip (acc.email.getD "").data = [] ∨ pyStrip (acc.password.getD "").data = []) →
      processAccount acc login checkin =
        .ok (ProcResult.mk FAILED "Missing credentials" false false)) ∧
    (∀ (accs : List Account) (loginO checkinO : Nat → StepResult), accs ≠ [] →
      (∀ a ∈ accs, (∃ l, safe_label a = .ok l) ∧
        (pyStrip (a.email.getD "").data = [] ∨ pyStrip (a.password.getD "").data = [])) →
      mainRun (ConfigInput.accounts accs) loginO checkinO = .ok 1) := by
  constructor
  · intro h1 h2
    exact processAccount_missing_creds acc login checkin h1 h2
  · intro accs loginO checkinO hne hall
    simp only [mainRun, runAccounts_all_missing loginO checkinO accs hall 0]
    rw [exit_code_all_failed _ (by simp [hne]) ?_]
    intro r hr
    obtain ⟨a, _, rfl⟩ := List.mem_map.mp hr
    rfl

/-- C10 witness: a single labelled account with a blank email is recorded
as missing credentials, and a run of just that account exits 1. -/
theorem c10_missing_credentials_policy_witness :
    processAccount (Account.mk (some "L") (some "") (some "pw") none none)
      (StepResult.ok SUCCESS "a") (StepResult.ok SUCCESS "b")
      = Except.ok (ProcResult.mk FAILED "Missing credentials" false false) ∧
    mainRun (ConfigInput.accounts [Account.mk (some "L") (some "") (some "pw") none none])
      (fun _ => StepResult.ok SUCCESS "a") (fun _ => StepResult.ok SUCCESS "b")
      = Except.ok 1 :=
  ⟨(c10_missing_credentials_policy (Account.mk (some "L") (some "") (some "pw") none none)
      (StepResult.ok SUCCESS "a") (StepResult.ok SUCCESS "b")).1
      ⟨"L".data, rfl⟩ (Or.inl rfl),
    (c10_missing_credentials_policy (Account.mk (some "L") (some "") (some "pw") none none)
      (StepResult.ok SUCCESS "a") (StepResult.ok SUCCESS "b")).2
      [Account.mk (some "L") (some "") (some "pw") none none]
      (fun _ => StepResult.ok SUCCESS "a") (fun _ => StepResult.ok SUCCESS "b")
      (by simp)
      (by
        intro a ha
        rw [List.mem_singleton] at ha
        subst ha
        exact ⟨⟨"L".data, rfl⟩, Or.inl rfl⟩)⟩
